import Mathlib

/-!
Verification of the generic caching decorator subsystem of the ms-watches-backend
repository: `DataSerializer`, cache-key derivation (`get_cache_name`), the memoizing
decorator (`cache_function` / `cache_method`) of
`src/core/cache/cache_instances/extended_instance.py`, and the service wiring of
`src/core/cache/cache_instances/base_cache_service.py` /
`src/brands/v1/services/cache_services.py`.

The Python code is shallowly embedded: Python runtime values that can appear as
decorated-call arguments and results are the inductive `Val`; the byte strings
produced by `orjson.dumps` are identified with the JSON trees they parse to
(inductive `Json`), with a separate `Blob.bad` constructor standing for stored
bytes on which `orjson.loads` raises; the async decorator body is a pure state
transformer `wrapper_run` over an explicit store, with adapter failures injected
through an environment record (`Env`), mirroring the `try`/`except` structure of
the source line by line.
-/

/-- JSON trees. A byte string produced by `orjson.dumps` is identified with the
JSON tree it parses back to; `orjson` itself is an external library, not
repository code, so only its documented input/output relation is modelled. -/
inductive Json where
  | null
  | boolv (b : Bool)
  | intv (n : Int)
  | strv (s : String)
  | arr (l : List Json)
  | obj (l : List (String × Json))

/-- Contents of one stored cache entry: either well-formed bytes (identified
with the JSON tree `orjson.loads` yields) or malformed bytes on which
`orjson.loads` raises. -/
inductive Blob where
  | good (j : Json)
  | bad

/-- Python classes, as far as `isinstance` checks in the cache core see them:
the built-in classes that occur as runtime types of embedded values, the
`Undefined` sentinel class of `extended_instance.py` line 17, and user-defined
classes given by a name and a single base class. -/
inductive PyClass where
  | noneType
  | boolType
  | intType
  | strType
  | listType
  | dictType
  | decimalC
  | baseModel
  | undefinedC
  | derived (name : String) (base : PyClass)
  deriving DecidableEq

/-- Python runtime values that flow through the cache core: the scalars,
sequences and string-keyed mappings `orjson` handles natively, `Decimal`
instances carried by their exact textual form, pydantic model instances
carried by their `model_dump` field list, and instances of other user classes
(`objv`), which the serializer's handler table does not cover. -/
inductive Val where
  | null
  | boolv (b : Bool)
  | intv (n : Int)
  | strv (s : String)
  | decv (s : String)
  | listv (l : List Val)
  | dictv (l : List (String × Val))
  | recv (l : List (String × Val))
  | objv (cls : PyClass)

/-- Exceptions that can reach a decorated call's caller: the `AttributeError`
raised by attribute access on the unwired `Ellipsis` slot of
`BaseCacheService`, the `TypeError` that `isinstance` raises when
`not_cache_on_type` is configured with something that is not a class or a
tuple of classes, or any other exception, carried by its message. -/
inductive PyErr where
  | attributeError
  | typeError
  | exc (msg : String)
  deriving DecidableEq

/-- Identity of a wrapped Python function: its `__name__` and `__qualname__`.
Line 203 of `extended_instance.py` reads only `func.__name__`. -/
structure PyFunc where
  name : String
  qualname : String
  deriving DecidableEq

/-- Failure injection for the key-value store adapter during one decorated
call: whether `await self.get(key)` raises (line 208) and whether
`await self.set(key, ...)` raises (line 231). -/
structure Env where
  getRaises : Bool
  setRaises : Bool
  deriving DecidableEq

/-- The key-value store: entries are (key, blob, TTL-at-write-time). New
entries are prepended and lookup takes the first match, which gives Redis
`SET` overwrite semantics for `get`. No clock is modelled, so TTL expiry is
outside the embedding; the TTL recorded at write time is observable. -/
def Store : Type := List (String × Blob × Nat)

/-- Everything a single decorated call produces: the caller-visible outcome
(the wrapped operation's exceptions are the only ones that can appear in it,
mirroring the `try`/`except` blocks of lines 207-233), whether the wrapped
operation was invoked, and the resulting store. -/
structure RunResult where
  result : Except PyErr Val
  invoked : Bool
  store : Store

/-- Code-point comparison of Python strings, as `sorted` uses on the keys of
`kwargs.items()`: lexicographic on the characters' code points. -/
def charListLe : List Char → List Char → Bool
  | [], _ => true
  | _ :: _, [] => false
  | a :: as, b :: bs =>
    if a.toNat < b.toNat then true
    else if b.toNat < a.toNat then false
    else charListLe as bs

theorem charListLe_total : ∀ as bs, charListLe as bs = true ∨ charListLe bs as = true
  | [], _ => Or.inl rfl
  | _ :: _, [] => Or.inr rfl
  | a :: as, b :: bs => by
    rcases Nat.lt_trichotomy a.toNat b.toNat with h | h | h
    · left; simp [charListLe, h]
    · rcases charListLe_total as bs with ih | ih
      · left; simp [charListLe, h, ih]
      · right; simp [charListLe, h.symm, ih]
    · right; simp [charListLe, h]

theorem charListLe_trans : ∀ as bs cs, charListLe as bs = true → charListLe bs cs = true →
    charListLe as cs = true
  | [], _, _, _, _ => rfl
  | _ :: _, [], _, h1, _ => by simp [charListLe] at h1
  | _ :: _, _ :: _, [], _, h2 => by simp [charListLe] at h2
  | a :: as, b :: bs, c :: cs, h1, h2 => by
    rcases Nat.lt_trichotomy a.toNat b.toNat with hab | hab | hab
    · rcases Nat.lt_trichotomy b.toNat c.toNat with hbc | hbc | hbc
      · simp [charListLe, show a.toNat < c.toNat from hab.trans hbc]
      · simp [charListLe, show a.toNat < c.toNat from hbc ▸ hab]
      · simp [charListLe, Nat.lt_asymm hbc, hbc] at h2
    · rcases Nat.lt_trichotomy b.toNat c.toNat with hbc | hbc | hbc
      · simp [charListLe, show a.toNat < c.toNat from hab ▸ hbc]
      · have hac : a.toNat = c.toNat := hab.trans hbc
        simp [charListLe, hab, Nat.lt_irrefl] at h1
        simp [charListLe, hbc, Nat.lt_irrefl] at h2
        simp [charListLe, hac, Nat.lt_irrefl]
        exact charListLe_trans as bs cs h1 h2
      · simp [charListLe, Nat.lt_asymm hbc, hbc] at h2
    · simp [charListLe, Nat.lt_asymm hab, hab] at h1

theorem charListLe_antisymm : ∀ as bs, charListLe as bs = true → charListLe bs as = true →
    as = bs
  | [], [], _, _ => rfl
  | [], _ :: _, _, h2 => by simp [charListLe] at h2
  | _ :: _, [], h1, _ => by simp [charListLe] at h1
  | a :: as, b :: bs, h1, h2 => by
    rcases Nat.lt_trichotomy a.toNat b.toNat with hab | hab | hab
    · simp [charListLe, Nat.lt_asymm hab, hab] at h2
    · have hab2 : a = b :=
        Char.eq_of_val_eq (UInt32.eq_of_val_eq (Fin.eq_of_val_eq hab))
      subst hab2
      simp [charListLe, Nat.lt_irrefl] at h1 h2
      rw [charListLe_antisymm as bs h1 h2]
    · simp [charListLe, Nat.lt_asymm hab, hab] at h1

/-- A single-quote character as a string, used when building Python `repr`
forms of strings. -/
def pySq : String := String.singleton (Char.ofNat 39)

mutual
/-- Python `str`/`repr` of an embedded value, as interpolated into the key
data of `get_cache_name` (line 167). Escaping inside string reprs is not
modelled; every claim settled here is insensitive to it. The default repr of
a plain object (`objv`) contains a memory address in Python; the claims that
touch key derivation all restrict themselves to arguments with a stable
textual form, which is what this function models. -/
def pyRepr : Val → String
  | .null => "None"
  | .boolv true => "True"
  | .boolv false => "False"
  | .intv n => toString n
  | .strv s => pySq ++ s ++ pySq
  | .decv s => "Decimal(" ++ pySq ++ s ++ pySq ++ ")"
  | .listv l => "[" ++ pyReprSeq l ++ "]"
  | .dictv l => "\x7b" ++ pyReprDict l ++ "\x7d"
  | .recv l => "Model(" ++ pyReprDict l ++ ")"
  | .objv _ => "<object>"

def pyReprSeq : List Val → String
  | [] => ""
  | [v] => pyRepr v
  | v :: vs => pyRepr v ++ ", " ++ pyReprSeq vs

def pyReprDict : List (String × Val) → String
  | [] => ""
  | [(k, v)] => pySq ++ k ++ pySq ++ ": " ++ pyRepr v
  | (k, v) :: vs => pySq ++ k ++ pySq ++ ": " ++ pyRepr v ++ ", " ++ pyReprDict vs
end

/-- Python `str` of the `args` tuple, as `f"{args}..."` produces it on line
167: `()`, `(x,)`, or `(a, b, ...)`. -/
def pyReprTuple : List Val → String
  | [] => "()"
  | [v] => "(" ++ pyRepr v ++ ",)"
  | l => "(" ++ pyReprSeq l ++ ")"

/-- Python `str` of `sorted(kwargs.items())`: a list of 2-tuples. -/
def itemsReprAux : List (String × Val) → String
  | [] => ""
  | [(k, v)] => "(" ++ pySq ++ k ++ pySq ++ ", " ++ pyRepr v ++ ")"
  | (k, v) :: vs =>
    "(" ++ pySq ++ k ++ pySq ++ ", " ++ pyRepr v ++ ")" ++ ", " ++ itemsReprAux vs

def itemsRepr (l : List (String × Val)) : String :=
  "[" ++ itemsReprAux l ++ "]"

/-- Modelled from the spec: stand-in for `hashlib.md5(...).hexdigest()`
(line 170), which is Python standard library, not repository code. It is some
fixed pure function from the key data to a hex string; every claim settled
here depends only on the digest being a deterministic function of its input,
never on collision behaviour, so a simple FNV-style fold is used. -/
def md5hex (s : String) : String :=
  let h := s.data.foldl (fun acc c => (acc * 1099511628211 + c.toNat) % 18446744073709551616)
    14695981039346656037
  String.mk (Nat.toDigits 16 h)

/-- Ordering of `kwargs.items()` entries used by `sorted` on line 167. Dict
keys are unique, so Python's tuple comparison never reaches the values and
reduces to code-point comparison of the keys, which is what is modelled. -/
def kwLe (p q : String × Val) : Prop := charListLe p.1.data q.1.data = true

instance : DecidableRel kwLe := fun p q => by unfold kwLe; infer_instance

instance : IsTotal (String × Val) kwLe := ⟨fun p q => charListLe_total p.1.data q.1.data⟩

instance : IsTrans (String × Val) kwLe :=
  ⟨fun _ _ _ h1 h2 => charListLe_trans _ _ _ h1 h2⟩

/-- The `sorted(kwargs.items())` call of `get_cache_name` (line 167).
Insertion sort is extensionally the sort Python performs here: both are
correct stable sorts, and with unique dict keys the output is determined by
the multiset of items alone (proved in `sortItems_eq_of_perm`). -/
def sortItems (l : List (String × Val)) : List (String × Val) :=
  List.insertionSort kwLe l

/-- Strict companion of `kwLe`, antisymmetric because dict keys distinguish
entries. -/
def kwLt (p q : String × Val) : Prop := kwLe p q ∧ p.1 ≠ q.1

theorem string_eq_of_data_eq {s t : String} (h : s.data = t.data) : s = t := by
  cases s; cases t; exact congrArg String.mk h

instance : IsAntisymm (String × Val) kwLt :=
  ⟨fun _ _ hab hba =>
    absurd (string_eq_of_data_eq (charListLe_antisymm _ _ hab.1 hba.1)) hab.2⟩

theorem pairwise_kwLt_of_sorted {s : List (String × Val)}
    (hs : List.Sorted kwLe s) (hn : (s.map Prod.fst).Nodup) : s.Pairwise kwLt :=
  (List.Pairwise.and hs (List.pairwise_map.mp hn)).imp fun h => h

/-- Two kwargs dicts holding the same items (in any order, keys unique) sort
to the same list. -/
theorem sortItems_eq_of_perm {l₁ l₂ : List (String × Val)} (h : l₁.Perm l₂)
    (hn : (l₁.map Prod.fst).Nodup) : sortItems l₁ = sortItems l₂ := by
  have hp : (sortItems l₁).Perm (sortItems l₂) :=
    (List.perm_insertionSort kwLe l₁).trans
      (h.trans (List.perm_insertionSort kwLe l₂).symm)
  have hn₁ : ((sortItems l₁).map Prod.fst).Nodup :=
    (((List.perm_insertionSort kwLe l₁).map Prod.fst).nodup_iff).mpr hn
  have hn₂ : ((sortItems l₂).map Prod.fst).Nodup :=
    (((List.perm_insertionSort kwLe l₂).map Prod.fst).nodup_iff).mpr
      (((h.map Prod.fst).nodup_iff).mp hn)
  exact List.eq_of_perm_of_sorted hp
    (pairwise_kwLt_of_sorted (List.sorted_insertionSort kwLe l₁) hn₁)
    (pairwise_kwLt_of_sorted (List.sorted_insertionSort kwLe l₂) hn₂)

/-- Embedding of `CacheExtendedInstance.get_cache_name` (lines 150-173):
`key_data = f"{args}{sorted(kwargs.items())}"`, then
`f"{prefix}:{md5(key_data).hexdigest()}"`. -/
def get_cache_name (pfx : String) (args : List Val) (kwargs : List (String × Val)) : String :=
  let key_data := pyReprTuple args ++ itemsRepr (sortItems kwargs)
  pfx ++ ":" ++ md5hex key_data

mutual
/-- Embedding of `DataSerializer(v).serialized` (lines 45-66 with the handler
table of lines 40-43): `orjson.dumps(data, default=handle_orjson_defaults)`.
Natively supported values are encoded structurally; `Decimal` instances go
through `handle_decimal` (stringify, line 105), pydantic model instances
through `handle_pydantic` (`model_dump`, line 102, applied recursively by
`orjson` to nested unsupported values); any other object hits the final
`raise TypeError` of line 134, which `serialized` re-raises as
`RuntimeError` — modelled as `none`. -/
def serialize : Val → Option Json
  | .null => some .null
  | .boolv b => some (.boolv b)
  | .intv n => some (.intv n)
  | .strv s => some (.strv s)
  | .decv s => some (.strv s)
  | .listv l => (serializeList l).map Json.arr
  | .dictv l => (serializeFields l).map Json.obj
  | .recv l => (serializeFields l).map Json.obj
  | .objv _ => none

def serializeList : List Val → Option (List Json)
  | [] => some []
  | v :: vs =>
    match serialize v, serializeList vs with
    | some j, some js => some (j :: js)
    | _, _ => none

def serializeFields : List (String × Val) → Option (List (String × Json))
  | [] => some []
  | (k, v) :: vs =>
    match serialize v, serializeFields vs with
    | some j, some js => some ((k, j) :: js)
    | _, _ => none
end

mutual
/-- The value `orjson.loads` yields for a well-formed byte blob: the JSON tree
read back as plain Python values (dicts, lists, strings, ints, bools, None). -/
def jsonToVal : Json → Val
  | .null => .null
  | .boolv b => .boolv b
  | .intv n => .intv n
  | .strv s => .strv s
  | .arr l => .listv (jsonToValList l)
  | .obj l => .dictv (jsonToValFields l)

def jsonToValList : List Json → List Val
  | [] => []
  | j :: js => jsonToVal j :: jsonToValList js

def jsonToValFields : List (String × Json) → List (String × Val)
  | [] => []
  | (k, j) :: js => (k, jsonToVal j) :: jsonToValFields js
end

/-- Embedding of `DataSerializer(blob).deserialized` (lines 68-88):
`orjson.loads` on well-formed bytes yields the parsed value; on malformed
bytes it raises, re-raised as `RuntimeError` — modelled as `none`. -/
def deserialize_blob : Blob → Option Val
  | .good j => some (jsonToVal j)
  | .bad => none

mutual
/-- Modelled from the spec (round-trip requirement of §3/§8): the value-equal
canonical form a supported value is expected to round-trip to — mappings and
sequences structurally, fixed-point values as their numeric-text string, and
record objects as their field-dump mapping. Stated from the claim's words, to
be compared against what the source's serialize/deserialize pair produces. -/
def canon : Val → Val
  | .null => .null
  | .boolv b => .boolv b
  | .intv n => .intv n
  | .strv s => .strv s
  | .decv s => .strv s
  | .listv l => .listv (canonList l)
  | .dictv l => .dictv (canonFields l)
  | .recv l => .dictv (canonFields l)
  | .objv c => .objv c

def canonList : List Val → List Val
  | [] => []
  | v :: vs => canon v :: canonList vs

def canonFields : List (String × Val) → List (String × Val)
  | [] => []
  | (k, v) :: vs => (k, canon v) :: canonFields vs
end

mutual
theorem serialize_rt : ∀ (v : Val) (j : Json), serialize v = some j → jsonToVal j = canon v
  | .null, j, h => by
    simp [serialize] at h; subst h; rfl
  | .boolv b, j, h => by
    simp [serialize] at h; subst h; rfl
  | .intv n, j, h => by
    simp [serialize] at h; subst h; rfl
  | .strv s, j, h => by
    simp [serialize] at h; subst h; rfl
  | .decv s, j, h => by
    simp [serialize] at h; subst h; rfl
  | .listv l, j, h => by
    cases hl : serializeList l with
    | none => simp [serialize, hl] at h
    | some js =>
      simp [serialize, hl] at h
      subst h
      simp [jsonToVal, canon, serializeList_rt l js hl]
  | .dictv l, j, h => by
    cases hl : serializeFields l with
    | none => simp [serialize, hl] at h
    | some js =>
      simp [serialize, hl] at h
      subst h
      simp [jsonToVal, canon, serializeFields_rt l js hl]
  | .recv l, j, h => by
    cases hl : serializeFields l with
    | none => simp [serialize, hl] at h
    | some js =>
      simp [serialize, hl] at h
      subst h
      simp [jsonToVal, canon, serializeFields_rt l js hl]
  | .objv c, j, h => by
    simp [serialize] at h

theorem serializeList_rt : ∀ (l : List Val) (js : List Json),
    serializeList l = some js → jsonToValList js = canonList l
  | [], js, h => by
    simp [serializeList] at h; subst h; rfl
  | v :: vs, js, h => by
    cases hv : serialize v with
    | none => simp [serializeList, hv] at h
    | some j =>
      cases hvs : serializeList vs with
      | none => simp [serializeList, hv, hvs] at h
      | some js2 =>
        simp [serializeList, hv, hvs] at h
        subst h
        simp [jsonToValList, canonList, serialize_rt v j hv, serializeList_rt vs js2 hvs]

theorem serializeFields_rt : ∀ (l : List (String × Val)) (js : List (String × Json)),
    serializeFields l = some js → jsonToValFields js = canonFields l
  | [], js, h => by
    simp [serializeFields] at h; subst h; rfl
  | (k, v) :: vs, js, h => by
    cases hv : serialize v with
    | none => simp [serializeFields, hv] at h
    | some j =>
      cases hvs : serializeFields vs with
      | none => simp [serializeFields, hv, hvs] at h
      | some js2 =>
        simp [serializeFields, hv, hvs] at h
        subst h
        simp [jsonToValFields, canonFields, serialize_rt v j hv, serializeFields_rt vs js2 hvs]
end

/-- Runtime class of an embedded value, as `type(result)` / `isinstance` see
it on line 221. Pydantic model instances are taken at `BaseModel` (a concrete
model class would be a `derived` class over it; nothing settled here depends
on that distinction). -/
def classOf : Val → PyClass
  | .null => .noneType
  | .boolv _ => .boolType
  | .intv _ => .intType
  | .strv _ => .strType
  | .decv _ => .decimalC
  | .listv _ => .listType
  | .dictv _ => .dictType
  | .recv _ => .baseModel
  | .objv c => c

/-- Python subclass test: a class is a subclass of itself, a `derived` class
of whatever its base is a subclass of, and `bool` of `int`. -/
def isSub (c d : PyClass) : Bool :=
  c == d ||
    match c with
    | .derived _ p => isSub p d
    | .boolType => d == .intType
    | _ => false

/-- The `not_cache_on_type` argument of `cache_function` (line 178). The
annotation says class or sequence of classes, but the parameter accepts any
Python value — `users/v1/services/cache_services.py` line 9 passes
`not_cache_on_type=None` — so the embedding carries a third shape, `other`,
for configured values that are neither a class nor a tuple of classes
(tagged with the offending value). -/
inductive ExclSpec where
  | single (t : PyClass)
  | tuple (ts : List PyClass)
  | other (v : Val)

/-- The `isinstance(result, not_cache_on_type)` check of line 221. On a class
it is the subclass test on the result's class, on a tuple of classes the
disjunction over its members; on anything else `isinstance` raises
`TypeError` (its second argument must be a type or tuple of types) — and
line 221 sits outside every `try` block, so that error is uncaught. -/
def py_isinstance (c : PyClass) : ExclSpec → Except PyErr Bool
  | .single t => .ok (isSub c t)
  | .tuple ts => .ok (ts.any (isSub c))
  | .other _ => .error .typeError

/-- Exclusion configurations on which `isinstance` does not raise: a class or
a tuple of classes. -/
def valid_excl : ExclSpec → Bool
  | .single _ => true
  | .tuple _ => true
  | .other _ => false

theorem py_isinstance_ok (c : PyClass) (excl : ExclSpec) (h : valid_excl excl = true) :
    ∃ b, py_isinstance c excl = .ok b := by
  cases excl with
  | single t => exact ⟨isSub c t, rfl⟩
  | tuple ts => exact ⟨ts.any (isSub c), rfl⟩
  | other v => simp [valid_excl] at h

/-- The default `not_cache_on_type = Undefined` of lines 178 and 259: the
`Undefined` sentinel class itself. -/
def exclDefault : ExclSpec := .single .undefinedC

/-- Redis `GET`-with-metadata on the embedded store: first entry under the
key, if any. -/
def store_find (s : Store) (k : String) : Option (Blob × Nat) :=
  (List.find? (fun e => e.1 == k) s).map Prod.snd

/-- Redis `GET` on the embedded store: `await self.get(key)` of line 208
returns the stored blob or `None`. -/
def store_get (s : Store) (k : String) : Option Blob :=
  (store_find s k).map Prod.fst

/-- Redis `SET ... EX expiry` of line 231: unconditional overwrite, recording
the TTL passed at write time. -/
def store_set (s : Store) (k : String) (b : Blob) (ttl : Nat) : Store :=
  (k, b, ttl) :: s

/-- What `cached_data` holds after the `try`/`except` of lines 207-211: the
stored blob, or `None` when the key is absent or the adapter `get` raised
(the exception is logged and swallowed). -/
def lookup_blob (env : Env) (s : Store) (k : String) : Option Blob :=
  if env.getRaises then none else store_get s k

/-- The successfully deserialized hit of lines 213-217, if any: a present,
well-formed blob deserializes and is returned; a deserialization failure is
logged and falls through to the miss path. -/
def hit_val : Option Blob → Option Val
  | some (.good j) => some (jsonToVal j)
  | _ => none

/-- The cache key a decorated call uses: line 203 `_prefix = prefix or
func.__name__` followed by line 205 `self.get_cache_name(_prefix, *args,
**kwargs)`. (`prefix or ...` treats an explicit empty string like `None`;
the embedding's `Option` carries only the `None`-vs-set distinction, which is
the only one the code's callers exercise.) -/
def wrapper_key (pfx : Option String) (func : PyFunc) (args : List Val)
    (kwargs : List (String × Val)) : String :=
  get_cache_name (pfx.getD func.name) args kwargs

/-- Embedding of one call through the decorated `wrapper` of
`cache_function` (lines 200-237), with `fbody` the behaviour of
`await func(*args, **kwargs)` on this call. `cache_method` (lines 254-309)
delegates each call to exactly this wrapper (line 305), so it is covered by
the same embedding. Control flow mirrors the source: compute the key; `get`
with exceptions swallowed; return a deserializable hit; otherwise invoke the
wrapped operation (its exceptions propagate — no `try` around line 219);
run the `isinstance` exclusion check of line 221, whose own `TypeError` on an
invalid configuration is equally uncaught and propagates; return excluded
result types unstored; serialize, returning the live result on failure;
`set` with exceptions swallowed; return the live result. -/
def wrapper_run (env : Env) (expiry : Nat) (pfx : Option String) (excl : ExclSpec)
    (func : PyFunc) (fbody : Except PyErr Val) (args : List Val)
    (kwargs : List (String × Val)) (store : Store) : RunResult :=
  match hit_val (lookup_blob env store (wrapper_key pfx func args kwargs)) with
  | some v => ⟨.ok v, false, store⟩
  | none =>
    match fbody with
    | .error e => ⟨.error e, true, store⟩
    | .ok result =>
      match py_isinstance (classOf result) excl with
      | .error err => ⟨.error err, true, store⟩
      | .ok true => ⟨.ok result, true, store⟩
      | .ok false =>
        match serialize result with
        | none => ⟨.ok result, true, store⟩
        | some j =>
          if env.setRaises then ⟨.ok result, true, store⟩
          else ⟨.ok result, true,
            store_set store (wrapper_key pfx func args kwargs) (.good j) expiry⟩

theorem isSub_refl (c : PyClass) : isSub c c = true := by
  unfold isSub
  simp

/-- A value the serializer accepts is never an instance of the `Undefined`
sentinel class, so the default exclusion configuration excludes no
serializable result. -/
theorem serializable_not_excluded (v : Val) (j : Json) (h : serialize v = some j) :
    py_isinstance (classOf v) exclDefault = .ok false := by
  cases v <;> first
    | rfl
    | simp [serialize] at h

/-- The `db_services` slot of `BaseCacheService` (line 22 of
`base_cache_service.py`): the class-body default is the `Ellipsis` object
(`db_services = ...`), replaced by a real provider by `set_db_services`
(lines 25-27) or by a subclass body assignment. `none` is the unwired
`Ellipsis` default. -/
def DbSlot : Type := Option (Val → Except PyErr Val)

/-- Body of `BrandCacheServices.get_top_brands` (lines 15-17 of
`cache_services.py`): `await cls.db_services.get_top_brands(params=params)`.
When the slot still holds the `Ellipsis` default, the attribute access
`cls.db_services.get_top_brands` raises `AttributeError` (the `ellipsis`
object has no such attribute) inside the wrapped operation's body. -/
def brands_backing (slot : DbSlot) (params : Val) : Except PyErr Val :=
  match slot with
  | none => .error .attributeError
  | some fetch => fetch params

/-- Identity of `BrandCacheServices.get_top_brands` as the decorator sees it. -/
def get_top_brands_func : PyFunc :=
  ⟨"get_top_brands", "BrandCacheServices.get_top_brands"⟩

/-- One call of the decorated `BrandCacheServices.get_top_brands(params=p)`:
`@cache.cache_method()` with all defaults (expiry `15 * 60`, no prefix,
`Undefined` exclusion), delegating to `cache_function`'s wrapper. The bound
class argument contributes only a constant to the key text and is elided from
`args`. -/
def get_top_brands_call (env : Env) (slot : DbSlot) (params : Val)
    (store : Store) : RunResult :=
  wrapper_run env (15 * 60) none exclDefault get_top_brands_func
    (brands_backing slot params) [] [("params", params)] store

/-- A call that finds a deserializable hit returns it without invoking the
wrapped operation and leaves the store unchanged (lines 213-215). -/
theorem wrapper_run_hit (env : Env) (e : Nat) (pfx : Option String) (excl : ExclSpec)
    (func : PyFunc) (fbody : Except PyErr Val) (args : List Val)
    (kwargs : List (String × Val)) (store : Store) (v : Val)
    (hhit : hit_val (lookup_blob env store (wrapper_key pfx func args kwargs)) = some v) :
    wrapper_run env e pfx excl func fbody args kwargs store = ⟨.ok v, false, store⟩ := by
  unfold wrapper_run
  rw [hhit]

/-- On the miss path a raising wrapped operation makes the call raise the same
exception, with the store untouched (line 219 has no surrounding `try`). -/
theorem wrapper_run_miss_error (env : Env) (e : Nat) (pfx : Option String) (excl : ExclSpec)
    (func : PyFunc) (err : PyErr) (args : List Val)
    (kwargs : List (String × Val)) (store : Store)
    (hmiss : hit_val (lookup_blob env store (wrapper_key pfx func args kwargs)) = none) :
    wrapper_run env e pfx excl func (.error err) args kwargs store
      = ⟨.error err, true, store⟩ := by
  unfold wrapper_run
  rw [hmiss]

/-- On the miss path an excluded result type is returned without touching the
store (lines 221-222). -/
theorem wrapper_run_excluded (env : Env) (e : Nat) (pfx : Option String) (excl : ExclSpec)
    (func : PyFunc) (r : Val) (args : List Val)
    (kwargs : List (String × Val)) (store : Store)
    (hmiss : hit_val (lookup_blob env store (wrapper_key pfx func args kwargs)) = none)
    (hexcl : py_isinstance (classOf r) excl = .ok true) :
    wrapper_run env e pfx excl func (.ok r) args kwargs store = ⟨.ok r, true, store⟩ := by
  unfold wrapper_run
  rw [hmiss]
  simp [hexcl]

/-- On the miss path an unserializable result is returned with the store
untouched (lines 224-228). -/
theorem wrapper_run_ser_fail (env : Env) (e : Nat) (pfx : Option String) (excl : ExclSpec)
    (func : PyFunc) (r : Val) (args : List Val)
    (kwargs : List (String × Val)) (store : Store)
    (hmiss : hit_val (lookup_blob env store (wrapper_key pfx func args kwargs)) = none)
    (hexcl : py_isinstance (classOf r) excl = .ok false)
    (hser : serialize r = none) :
    wrapper_run env e pfx excl func (.ok r) args kwargs store = ⟨.ok r, true, store⟩ := by
  unfold wrapper_run
  rw [hmiss]
  simp [hexcl, hser]

/-- On the miss path with a serializable, non-excluded result and a working
`set`, the call stores the serialized result under the key with the
configured TTL and returns the live result (lines 230-235). -/
theorem wrapper_run_store (env : Env) (e : Nat) (pfx : Option String) (excl : ExclSpec)
    (func : PyFunc) (r : Val) (j : Json) (args : List Val)
    (kwargs : List (String × Val)) (store : Store)
    (hmiss : hit_val (lookup_blob env store (wrapper_key pfx func args kwargs)) = none)
    (hexcl : py_isinstance (classOf r) excl = .ok false)
    (hser : serialize r = some j)
    (hset : env.setRaises = false) :
    wrapper_run env e pfx excl func (.ok r) args kwargs store
      = ⟨.ok r, true, store_set store (wrapper_key pfx func args kwargs) (.good j) e⟩ := by
  unfold wrapper_run
  rw [hmiss]
  simp [hexcl, hser, hset]

/-- On the miss path with a serializable, non-excluded result but a raising
`set`, the failure is swallowed: live result, store untouched (lines
230-235). -/
theorem wrapper_run_set_fail (env : Env) (e : Nat) (pfx : Option String) (excl : ExclSpec)
    (func : PyFunc) (r : Val) (j : Json) (args : List Val)
    (kwargs : List (String × Val)) (store : Store)
    (hmiss : hit_val (lookup_blob env store (wrapper_key pfx func args kwargs)) = none)
    (hexcl : py_isinstance (classOf r) excl = .ok false)
    (hser : serialize r = some j)
    (hset : env.setRaises = true) :
    wrapper_run env e pfx excl func (.ok r) args kwargs store = ⟨.ok r, true, store⟩ := by
  unfold wrapper_run
  rw [hmiss]
  simp [hexcl, hser, hset]

/-- Every miss-path call under a valid exclusion configuration returns
exactly the wrapped operation's outcome and marks it invoked, whatever else
happens in the pipeline. (Validity is needed: an invalid `not_cache_on_type`
makes line 221 raise an uncaught `TypeError` on this path.) -/
theorem wrapper_run_miss (env : Env) (e : Nat) (pfx : Option String) (excl : ExclSpec)
    (func : PyFunc) (fbody : Except PyErr Val) (args : List Val)
    (kwargs : List (String × Val)) (store : Store)
    (hmiss : hit_val (lookup_blob env store (wrapper_key pfx func args kwargs)) = none)
    (hvalid : valid_excl excl = true) :
    (wrapper_run env e pfx excl func fbody args kwargs store).result = fbody
    ∧ (wrapper_run env e pfx excl func fbody args kwargs store).invoked = true := by
  unfold wrapper_run
  rw [hmiss]
  cases fbody with
  | error err => exact ⟨rfl, rfl⟩
  | ok r =>
    obtain ⟨b, hb⟩ := py_isinstance_ok (classOf r) excl hvalid
    cases b with
    | true => simp [hb]
    | false =>
      cases hser : serialize r with
      | none => simp [hb, hser]
      | some j =>
        by_cases hset : env.setRaises <;> simp [hb, hser, hset]

/-- C2 (amended): for every decorated call whose `not_cache_on_type`
configuration is valid (a class or tuple of classes, in particular the
default), any failure inside the caching pipeline — the adapter's `get`
raising, deserialization of a cached blob failing, serialization of the
result failing, or the adapter's `set` raising — leaves the caller-visible
outcome identical to calling the wrapped operation uncached: the wrapped
operation is invoked, its live outcome is returned, and no exception of the
caching pipeline reaches the caller. -/
theorem claim_C2_pipeline_failures_transparent (env : Env) (e : Nat) (pfx : Option String)
    (excl : ExclSpec) (func : PyFunc) (fbody : Except PyErr Val) (args : List Val)
    (kwargs : List (String × Val)) (store : Store)
    (hvalid : valid_excl excl = true)
    (hfail :
      env.getRaises = true
      ∨ lookup_blob env store (wrapper_key pfx func args kwargs) = some .bad
      ∨ (hit_val (lookup_blob env store (wrapper_key pfx func args kwargs)) = none
          ∧ ((∃ r, fbody = .ok r ∧ serialize r = none) ∨ env.setRaises = true))) :
    (wrapper_run env e pfx excl func fbody args kwargs store).result = fbody
    ∧ (wrapper_run env e pfx excl func fbody args kwargs store).invoked = true := by
  have hmiss : hit_val (lookup_blob env store (wrapper_key pfx func args kwargs)) = none := by
    rcases hfail with hg | hb | ⟨hm, _⟩
    · simp [lookup_blob, hg, hit_val]
    · rw [hb]; rfl
    · exact hm
  exact wrapper_run_miss env e pfx excl func fbody args kwargs store hmiss hvalid

theorem claim_C2_pipeline_failures_transparent_witness :
    valid_excl exclDefault = true
    ∧ ((⟨true, false⟩ : Env).getRaises = true
      ∨ lookup_blob ⟨true, false⟩ [] (wrapper_key none ⟨"f", "S.f"⟩ [] []) = some .bad
      ∨ (hit_val (lookup_blob ⟨true, false⟩ [] (wrapper_key none ⟨"f", "S.f"⟩ [] [])) = none
          ∧ ((∃ r, (Except.ok (Val.intv 1) : Except PyErr Val) = .ok r ∧ serialize r = none)
              ∨ (⟨true, false⟩ : Env).setRaises = true)))
    ∧ (wrapper_run ⟨true, false⟩ 60 none exclDefault ⟨"f", "S.f"⟩ (.ok (.intv 1)) [] [] []).result
        = .ok (.intv 1)
    ∧ (wrapper_run ⟨true, false⟩ 60 none exclDefault ⟨"f", "S.f"⟩ (.ok (.intv 1)) [] [] []).invoked
        = true :=
  ⟨rfl, Or.inl rfl,
    claim_C2_pipeline_failures_transparent ⟨true, false⟩ 60 none exclDefault ⟨"f", "S.f"⟩
      (.ok (.intv 1)) [] [] [] rfl (Or.inl rfl)⟩

/-- Wrapped operation of `UserCacheServices.get_user_by_id`
(`users/v1/services/cache_services.py` lines 9-12), decorated with
`@cache.cache_method(expiry=15 * 60, not_cache_on_type=None)` — a
configuration on which `isinstance` raises `TypeError`. -/
def get_user_by_id_func : PyFunc := ⟨"get_user_by_id", "UserCacheServices.get_user_by_id"⟩

theorem claim_C2_counterexample :
    (wrapper_run ⟨true, false⟩ (15 * 60) none (.other .null) get_user_by_id_func
        (.ok (.dictv [("id", .intv 7)])) [] [("user_id", .intv 7)] []).invoked = true
    ∧ (wrapper_run ⟨true, false⟩ (15 * 60) none (.other .null) get_user_by_id_func
        (.ok (.dictv [("id", .intv 7)])) [] [("user_id", .intv 7)] []).result
      = .error .typeError
    ∧ (wrapper_run ⟨true, false⟩ (15 * 60) none (.other .null) get_user_by_id_func
        (.ok (.dictv [("id", .intv 7)])) [] [("user_id", .intv 7)] []).result
      ≠ .ok (.dictv [("id", .intv 7)]) := by
  refine ⟨rfl, rfl, ?_⟩
  intro h
  have h2 : (wrapper_run ⟨true, false⟩ (15 * 60) none (.other .null) get_user_by_id_func
      (.ok (.dictv [("id", .intv 7)])) [] [("user_id", .intv 7)] []).result
      = .error .typeError := rfl
  rw [h2] at h
  exact Except.noConfusion h

/-- C3: for every supported value shape — scalars, nested string-keyed
mappings and sequences, fixed-point decimal values, and record objects
exposing a field dump — serializing and then deserializing yields the
value-equal canonical form: mappings and sequences round-trip structurally,
decimals as their numeric-text string, records as their field-dump mapping. -/
theorem claim_C3_round_trip (v : Val) (j : Json) (h : serialize v = some j) :
    deserialize_blob (.good j) = some (canon v) := by
  simp [deserialize_blob, serialize_rt v j h]

theorem claim_C3_round_trip_witness :
    serialize (.dictv [("a", .listv [.intv 1, .decv "2.5"]),
        ("m", .recv [("x", .strv "y")]), ("b", .boolv true), ("n", .null)])
      = some (.obj [("a", .arr [.intv 1, .strv "2.5"]),
        ("m", .obj [("x", .strv "y")]), ("b", .boolv true), ("n", .null)])
    ∧ deserialize_blob (.good (.obj [("a", .arr [.intv 1, .strv "2.5"]),
        ("m", .obj [("x", .strv "y")]), ("b", .boolv true), ("n", .null)]))
      = some (canon (.dictv [("a", .listv [.intv 1, .decv "2.5"]),
        ("m", .recv [("x", .strv "y")]), ("b", .boolv true), ("n", .null)])) :=
  ⟨rfl, claim_C3_round_trip _ _ rfl⟩

/-- C4: cache-key derivation is deterministic — two calls of
`get_cache_name` on equal (prefix, args, kwargs) yield an identical key
string; the definition reads no per-process state and takes no salt. -/
theorem claim_C4_key_deterministic (p₁ p₂ : String) (a₁ a₂ : List Val)
    (k₁ k₂ : List (String × Val)) (hp : p₁ = p₂) (ha : a₁ = a₂) (hk : k₁ = k₂) :
    get_cache_name p₁ a₁ k₁ = get_cache_name p₂ a₂ k₂ := by
  subst hp; subst ha; subst hk; rfl

theorem claim_C4_key_deterministic_witness :
    ("users" : String) = "users"
    ∧ ([Val.intv 7] : List Val) = [Val.intv 7]
    ∧ ([("a", Val.intv 1)] : List (String × Val)) = [("a", Val.intv 1)]
    ∧ get_cache_name "users" [.intv 7] [("a", .intv 1)]
      = get_cache_name "users" [.intv 7] [("a", .intv 1)] :=
  ⟨rfl, rfl, rfl,
    claim_C4_key_deterministic "users" "users" [.intv 7] [.intv 7]
      [("a", .intv 1)] [("a", .intv 1)] rfl rfl rfl⟩

/-- C5: cache-key derivation is independent of keyword-argument order — for
any two kwargs dicts holding the same key-value pairs (keys unique, as dict
keys are) in different insertion orders, `get_cache_name` yields the same
key. -/
theorem claim_C5_kwargs_order_independent (pfx : String) (args : List Val)
    (kw₁ kw₂ : List (String × Val)) (hperm : kw₁.Perm kw₂)
    (hn : (kw₁.map Prod.fst).Nodup) :
    get_cache_name pfx args kw₁ = get_cache_name pfx args kw₂ := by
  unfold get_cache_name
  rw [sortItems_eq_of_perm hperm hn]

theorem claim_C5_kwargs_order_independent_witness :
    ([("a", Val.intv 1), ("b", Val.intv 2)] : List (String × Val)).Perm
      [("b", Val.intv 2), ("a", Val.intv 1)]
    ∧ ([("a", Val.intv 1), ("b", Val.intv 2)].map Prod.fst).Nodup
    ∧ get_cache_name "p" [] [("a", .intv 1), ("b", .intv 2)]
      = get_cache_name "p" [] [("b", .intv 2), ("a", .intv 1)] :=
  ⟨List.Perm.swap ("b", Val.intv 2) ("a", Val.intv 1) [], by decide,
    claim_C5_kwargs_order_independent "p" [] _ _
      (List.Perm.swap ("b", Val.intv 2) ("a", Val.intv 1) []) (by decide)⟩

/-- C6: with exclusion configured as the `NoneType` class, a cache-miss call
whose wrapped operation returns `None` performs no `set` — the store is left
unchanged — while the caller still receives `None`. -/
theorem claim_C6_exclude_none (env : Env) (e : Nat) (pfx : Option String) (func : PyFunc)
    (args : List Val) (kwargs : List (String × Val)) (store : Store)
    (hmiss : hit_val (lookup_blob env store (wrapper_key pfx func args kwargs)) = none) :
    (wrapper_run env e pfx (.single .noneType) func (.ok .null) args kwargs store).store = store
    ∧ (wrapper_run env e pfx (.single .noneType) func (.ok .null) args kwargs store).result
      = .ok .null := by
  rw [wrapper_run_excluded env e pfx (.single .noneType) func .null args kwargs store hmiss rfl]
  exact ⟨rfl, rfl⟩

theorem claim_C6_exclude_none_witness :
    hit_val (lookup_blob ⟨false, false⟩ [] (wrapper_key none ⟨"f", "S.f"⟩ [] [])) = none
    ∧ (wrapper_run ⟨false, false⟩ 60 none (.single .noneType) ⟨"f", "S.f"⟩ (.ok .null)
        [] [] []).store = []
    ∧ (wrapper_run ⟨false, false⟩ 60 none (.single .noneType) ⟨"f", "S.f"⟩ (.ok .null)
        [] [] []).result = .ok .null :=
  ⟨rfl, claim_C6_exclude_none ⟨false, false⟩ 60 none ⟨"f", "S.f"⟩ [] [] [] rfl⟩

/-- C7: on the miss path, an exception raised by the wrapped operation itself
propagates unchanged to the caller — the caching layer neither catches nor
transforms it — and no store write happens for that call. -/
theorem claim_C7_wrapped_error_propagates (env : Env) (e : Nat) (pfx : Option String)
    (excl : ExclSpec) (func : PyFunc) (err : PyErr) (args : List Val)
    (kwargs : List (String × Val)) (store : Store)
    (hmiss : hit_val (lookup_blob env store (wrapper_key pfx func args kwargs)) = none) :
    (wrapper_run env e pfx excl func (.error err) args kwargs store).result = .error err
    ∧ (wrapper_run env e pfx excl func (.error err) args kwargs store).store = store
    ∧ (wrapper_run env e pfx excl func (.error err) args kwargs store).invoked = true := by
  rw [wrapper_run_miss_error env e pfx excl func err args kwargs store hmiss]
  exact ⟨rfl, rfl, rfl⟩

theorem claim_C7_wrapped_error_propagates_witness :
    hit_val (lookup_blob ⟨false, false⟩ [] (wrapper_key none ⟨"f", "S.f"⟩ [] [])) = none
    ∧ (wrapper_run ⟨false, false⟩ 60 none exclDefault ⟨"f", "S.f"⟩
        (.error (.exc "db down")) [] [] []).result = .error (.exc "db down")
    ∧ (wrapper_run ⟨false, false⟩ 60 none exclDefault ⟨"f", "S.f"⟩
        (.error (.exc "db down")) [] [] []).store = []
    ∧ (wrapper_run ⟨false, false⟩ 60 none exclDefault ⟨"f", "S.f"⟩
        (.error (.exc "db down")) [] [] []).invoked = true :=
  ⟨rfl, claim_C7_wrapped_error_propagates ⟨false, false⟩ 60 none exclDefault ⟨"f", "S.f"⟩
    (.exc "db down") [] [] [] rfl⟩

/-- C1 (amended): with a positive expiry, default exclusion, an available
store holding no entry for the derived key, and a serializable result, the
first decorated call invokes the wrapped operation exactly once, writes the
serialized result under the derived key with the configured TTL, and returns
the live result; an immediate second decorated call with the same arguments
does not invoke the wrapped operation and returns the deserialized stored
value — the canonical (serialization-image) form of the first result, which
coincides with the first result exactly when it contains no fixed-point or
record values. -/
theorem claim_C1_miss_then_hit (e : Nat) (pfx : Option String) (func : PyFunc)
    (args : List Val) (kwargs : List (String × Val)) (r : Val) (j : Json)
    (fb2 : Except PyErr Val) (store : Store)
    (_hpos : 0 < e)
    (hmiss : store_get store (wrapper_key pfx func args kwargs) = none)
    (hser : serialize r = some j) :
    (wrapper_run ⟨false, false⟩ e pfx exclDefault func (.ok r) args kwargs store).result = .ok r
    ∧ (wrapper_run ⟨false, false⟩ e pfx exclDefault func (.ok r) args kwargs store).invoked = true
    ∧ store_find
        (wrapper_run ⟨false, false⟩ e pfx exclDefault func (.ok r) args kwargs store).store
        (wrapper_key pfx func args kwargs) = some (.good j, e)
    ∧ (wrapper_run ⟨false, false⟩ e pfx exclDefault func fb2 args kwargs
        (wrapper_run ⟨false, false⟩ e pfx exclDefault func (.ok r) args kwargs store).store).invoked
      = false
    ∧ (wrapper_run ⟨false, false⟩ e pfx exclDefault func fb2 args kwargs
        (wrapper_run ⟨false, false⟩ e pfx exclDefault func (.ok r) args kwargs store).store).result
      = .ok (canon r) := by
  have hexcl := serializable_not_excluded r j hser
  have hm : hit_val (lookup_blob ⟨false, false⟩ store (wrapper_key pfx func args kwargs))
      = none := by
    simp [lookup_blob, hmiss, hit_val]
  have h1 := wrapper_run_store ⟨false, false⟩ e pfx exclDefault func r j args kwargs store
    hm hexcl hser rfl
  rw [h1]
  have hfind : store_find (store_set store (wrapper_key pfx func args kwargs) (.good j) e)
      (wrapper_key pfx func args kwargs) = some (.good j, e) := by
    simp [store_find, store_set, List.find?]
  have hm2 : hit_val (lookup_blob ⟨false, false⟩
      (store_set store (wrapper_key pfx func args kwargs) (.good j) e)
      (wrapper_key pfx func args kwargs)) = some (jsonToVal j) := by
    simp [lookup_blob, store_get, hfind, hit_val]
  rw [wrapper_run_hit ⟨false, false⟩ e pfx exclDefault func fb2 args kwargs _ (jsonToVal j) hm2]
  exact ⟨rfl, rfl, hfind, rfl, by rw [serialize_rt r j hser]⟩

/-- Wrapped operation of the spec's concrete miss-then-hit example:
`lookup(user_id)` returning a small user record. -/
def exF : PyFunc := ⟨"lookup", "UserService.lookup"⟩

def exR : Val := .dictv [("id", .intv 7), ("name", .strv "Ada")]

def exJ : Json := .obj [("id", .intv 7), ("name", .strv "Ada")]

theorem claim_C1_miss_then_hit_witness :
    0 < 60
    ∧ store_get [] (wrapper_key none exF [.intv 7] []) = none
    ∧ serialize exR = some exJ
    ∧ ((wrapper_run ⟨false, false⟩ 60 none exclDefault exF (.ok exR) [.intv 7] [] []).result
        = .ok exR
      ∧ (wrapper_run ⟨false, false⟩ 60 none exclDefault exF (.ok exR) [.intv 7] [] []).invoked
        = true
      ∧ store_find
          (wrapper_run ⟨false, false⟩ 60 none exclDefault exF (.ok exR) [.intv 7] [] []).store
          (wrapper_key none exF [.intv 7] []) = some (.good exJ, 60)
      ∧ (wrapper_run ⟨false, false⟩ 60 none exclDefault exF (.ok exR) [.intv 7] []
          (wrapper_run ⟨false, false⟩ 60 none exclDefault exF (.ok exR)
            [.intv 7] [] []).store).invoked = false
      ∧ (wrapper_run ⟨false, false⟩ 60 none exclDefault exF (.ok exR) [.intv 7] []
          (wrapper_run ⟨false, false⟩ 60 none exclDefault exF (.ok exR)
            [.intv 7] [] []).store).result = .ok (canon exR)) :=
  ⟨by decide, rfl, rfl,
    claim_C1_miss_then_hit 60 none exF [.intv 7] [] exR exJ (.ok exR) [] (by decide) rfl rfl⟩

/-- Decorated operation returning a `Decimal` result, for the C1
counterexample. -/
def decF : PyFunc := ⟨"get_rate", "RateService.get_rate"⟩

theorem claim_C1_counterexample :
    (wrapper_run ⟨false, false⟩ 60 none exclDefault decF (.ok (.decv "1.5")) [] [] []).result
      = .ok (.decv "1.5")
    ∧ (wrapper_run ⟨false, false⟩ 60 none exclDefault decF (.ok (.decv "1.5")) [] []
        (wrapper_run ⟨false, false⟩ 60 none exclDefault decF (.ok (.decv "1.5"))
          [] [] []).store).result ≠ .ok (.decv "1.5") := by
  constructor
  · rfl
  · intro h
    have h2 : (wrapper_run ⟨false, false⟩ 60 none exclDefault decF (.ok (.decv "1.5")) [] []
        (wrapper_run ⟨false, false⟩ 60 none exclDefault decF (.ok (.decv "1.5"))
          [] [] []).store).result = .ok (.strv "1.5") := rfl
    rw [h2] at h
    injection h with h3
    exact Val.noConfusion h3

/-- C8 (amended): when no explicit prefix is configured, the prefix component
of the derived cache key is the wrapped operation's plain `__name__`, not its
qualified name — so any two operations with the same plain name (in
particular same-named methods on different owning classes) called with
identical arguments derive the same cache key. -/
theorem claim_C8_default_prefix_plain_name :
    (∀ (func : PyFunc) (args : List Val) (kwargs : List (String × Val)),
      wrapper_key none func args kwargs = get_cache_name func.name args kwargs)
    ∧ (∀ (f g : PyFunc) (args : List Val) (kwargs : List (String × Val)),
        f.name = g.name →
        wrapper_key none f args kwargs = wrapper_key none g args kwargs) := by
  constructor
  · intro func args kwargs
    rfl
  · intro f g args kwargs h
    unfold wrapper_key
    rw [Option.getD_none, Option.getD_none, h]

theorem claim_C8_default_prefix_plain_name_witness :
    (⟨"get_top", "AService.get_top"⟩ : PyFunc).name
      = (⟨"get_top", "BService.get_top"⟩ : PyFunc).name
    ∧ wrapper_key none ⟨"get_top", "AService.get_top"⟩ [.intv 7] []
      = wrapper_key none ⟨"get_top", "BService.get_top"⟩ [.intv 7] [] :=
  ⟨rfl, claim_C8_default_prefix_plain_name.2 ⟨"get_top", "AService.get_top"⟩
    ⟨"get_top", "BService.get_top"⟩ [.intv 7] [] rfl⟩

theorem claim_C8_counterexample :
    (⟨"get_top", "AService.get_top"⟩ : PyFunc).qualname
      ≠ (⟨"get_top", "BService.get_top"⟩ : PyFunc).qualname
    ∧ wrapper_key none ⟨"get_top", "AService.get_top"⟩ [.intv 7] []
      = wrapper_key none ⟨"get_top", "BService.get_top"⟩ [.intv 7] [] :=
  ⟨by decide, rfl⟩

/-- C9 (amended): when the `db_services` slot still holds its unwired
`Ellipsis` default, every invocation of the decorated cacheable operation
that is not served from a previously stored cache entry raises
`AttributeError` (attribute access on the unwired sentinel) to the caller —
the caching layer does not swallow it — and leaves the store unchanged. -/
theorem claim_C9_unwired_provider_raises (env : Env) (params : Val) (store : Store)
    (hmiss : hit_val (lookup_blob env store
        (wrapper_key none get_top_brands_func [] [("params", params)])) = none) :
    (get_top_brands_call env none params store).result = .error .attributeError
    ∧ (get_top_brands_call env none params store).store = store
    ∧ (get_top_brands_call env none params store).invoked = true := by
  have h9 : get_top_brands_call env none params store
      = ⟨.error .attributeError, true, store⟩ :=
    wrapper_run_miss_error env (15 * 60) none exclDefault get_top_brands_func
      .attributeError [] [("params", params)] store hmiss
  rw [h9]
  exact ⟨rfl, rfl, rfl⟩

theorem claim_C9_unwired_provider_raises_witness :
    hit_val (lookup_blob ⟨false, false⟩ []
        (wrapper_key none get_top_brands_func [] [("params", Val.intv 1)])) = none
    ∧ (get_top_brands_call ⟨false, false⟩ none (.intv 1) []).result = .error .attributeError
    ∧ (get_top_brands_call ⟨false, false⟩ none (.intv 1) []).store = []
    ∧ (get_top_brands_call ⟨false, false⟩ none (.intv 1) []).invoked = true :=
  ⟨rfl, claim_C9_unwired_provider_raises ⟨false, false⟩ (.intv 1) [] rfl⟩

/-- Store already holding an entry under the key
`BrandCacheServices.get_top_brands` derives for `params = 1`, e.g. left by an
earlier wired process sharing the same Redis database. -/
def primedStore : Store :=
  [(wrapper_key none get_top_brands_func [] [("params", Val.intv 1)], .good (.intv 5), 60)]

theorem claim_C9_counterexample :
    (get_top_brands_call ⟨false, false⟩ none (.intv 1) primedStore).result = .ok (.intv 5)
    ∧ ∀ err : PyErr,
        (get_top_brands_call ⟨false, false⟩ none (.intv 1) primedStore).result
          ≠ .error err := by
  constructor
  · rfl
  · intro err h
    have h2 : (get_top_brands_call ⟨false, false⟩ none (.intv 1) primedStore).result
        = .ok (.intv 5) := rfl
    rw [h2] at h
    exact Except.noConfusion h

/-- C10: result exclusion is decided by `isinstance`, not exact runtime-type
membership — a `derived` class is a subclass of its base, a value whose class
is any subclass of a configured exclusion class is returned without a store
write, no serializable result is an instance of the default `Undefined`
sentinel, and under the default configuration every serializable miss result
is written to the store. -/
theorem claim_C10_isinstance_exclusion :
    (∀ (nm : String) (t : PyClass), isSub (.derived nm t) t = true)
    ∧ (∀ (env : Env) (e : Nat) (pfx : Option String) (t cls : PyClass) (func : PyFunc)
        (args : List Val) (kwargs : List (String × Val)) (store : Store),
        isSub cls t = true →
        hit_val (lookup_blob env store (wrapper_key pfx func args kwargs)) = none →
        (wrapper_run env e pfx (.single t) func (.ok (.objv cls)) args kwargs store).store
          = store
        ∧ (wrapper_run env e pfx (.single t) func (.ok (.objv cls)) args kwargs store).result
          = .ok (.objv cls))
    ∧ (∀ (v : Val) (j : Json), serialize v = some j →
        py_isinstance (classOf v) exclDefault = .ok false)
    ∧ (∀ (env : Env) (e : Nat) (pfx : Option String) (func : PyFunc) (r : Val) (j : Json)
        (args : List Val) (kwargs : List (String × Val)) (store : Store),
        env.setRaises = false → serialize r = some j →
        hit_val (lookup_blob env store (wrapper_key pfx func args kwargs)) = none →
        store_find (wrapper_run env e pfx exclDefault func (.ok r) args kwargs store).store
          (wrapper_key pfx func args kwargs) = some (.good j, e)) := by
  refine ⟨?_, ?_, ?_, ?_⟩
  · intro nm t
    unfold isSub
    simp [isSub_refl]
  · intro env e pfx t cls func args kwargs store hsub hmiss
    rw [wrapper_run_excluded env e pfx (.single t) func (.objv cls) args kwargs store
      hmiss (by simp [py_isinstance, classOf, hsub])]
    exact ⟨rfl, rfl⟩
  · exact serializable_not_excluded
  · intro env e pfx func r j args kwargs store hset hser hmiss
    rw [wrapper_run_store env e pfx exclDefault func r j args kwargs store hmiss
      (serializable_not_excluded r j hser) hser hset]
    simp [store_find, store_set, List.find?]

theorem claim_C10_isinstance_exclusion_witness :
    isSub (.derived "NoneProxy" .noneType) .noneType = true
    ∧ ((wrapper_run ⟨false, false⟩ 60 none (.single .noneType) ⟨"f", "S.f"⟩
        (.ok (.objv (.derived "NoneProxy" .noneType))) [] [] []).store = []
      ∧ (wrapper_run ⟨false, false⟩ 60 none (.single .noneType) ⟨"f", "S.f"⟩
          (.ok (.objv (.derived "NoneProxy" .noneType))) [] [] []).result
        = .ok (.objv (.derived "NoneProxy" .noneType)))
    ∧ py_isinstance (classOf (.intv 3)) exclDefault = .ok false
    ∧ store_find (wrapper_run ⟨false, false⟩ 60 none exclDefault ⟨"f", "S.f"⟩
        (.ok (.intv 3)) [] [] []).store (wrapper_key none ⟨"f", "S.f"⟩ [] [])
      = some (.good (.intv 3), 60) :=
  ⟨claim_C10_isinstance_exclusion.1 "NoneProxy" .noneType,
    claim_C10_isinstance_exclusion.2.1 ⟨false, false⟩ 60 none .noneType
      (.derived "NoneProxy" .noneType) ⟨"f", "S.f"⟩ [] [] [] rfl rfl,
    claim_C10_isinstance_exclusion.2.2.1 (.intv 3) (.intv 3) rfl,
    claim_C10_isinstance_exclusion.2.2.2 ⟨false, false⟩ 60 none ⟨"f", "S.f"⟩
      (.intv 3) (.intv 3) [] [] [] rfl rfl rfl⟩
